import Mathlib

/-!
Shallow embedding of the zip-eocd package (End-of-Central-Directory reader
for ZIP/ZIP64 archives).  Buffers (JS Uint8Array) are modelled as lists of
naturals; out-of-range reads yield 0 and out-of-range writes are dropped,
matching Uint8Array semantics.  JS 32-bit bitwise results are modelled as
signed two's-complement integers, JS BigInt reads as naturals.  The two
outer scanning loops of zipEOCD are modelled as fuel-indexed step functions
(the source loops have no syntactic bound), inner loops whose progress is
bounded by the buffer size run on a sufficient structural fuel.
-/

set_option maxRecDepth 100000

namespace ZipEocd

abbrev Bytes := List Nat

/-- Uint8Array read: element at index, 0 when out of range (JS undefined
coerces to 0 under bitwise operators). -/
def jsGet (buf : Bytes) (i : Int) : Nat :=
  if 0 ≤ i then buf.getD i.toNat 0 else 0

/-- Uint8Array write: store value mod 256 at index, silently dropped when
out of range. -/
def jsSet (buf : Bytes) (i : Int) (v : Nat) : Bytes :=
  if 0 ≤ i ∧ i < buf.length then buf.set i.toNat (v % 256) else buf

/-- Two's-complement reinterpretation of a 32-bit unsigned value, as produced
by JS bitwise operators. -/
def toInt32 (n : Nat) : Int :=
  if n % 2 ^ 32 < 2 ^ 31 then ((n % 2 ^ 32 : Nat) : Int) else ((n % 2 ^ 32 : Nat) : Int) - 2 ^ 32

/-- lget16 from zip-eocd.js: buf[off] | (buf[off+1] << 8). -/
def lget16 (buf : Bytes) (off : Int) : Nat :=
  Nat.lor (jsGet buf off) (Nat.shiftLeft (jsGet buf (off + 1)) 8)

/-- lget32 from zip-eocd.js: (lget16(buf,off) | (lget16(buf,off+2) << 16)) & 0xffffffff.
JS bitwise operators work on signed 32-bit integers, so the result is the
two's-complement reinterpretation of the 4-byte little-endian value. -/
def lget32 (buf : Bytes) (off : Int) : Int :=
  toInt32 (Nat.lor (lget16 buf off) (Nat.shiftLeft (lget16 buf (off + 2)) 16))

/-- lget16_bint: BigInt variant, exact unsigned value. -/
def lget16_bint (buf : Bytes) (off : Int) : Nat :=
  Nat.lor (jsGet buf off) (Nat.shiftLeft (jsGet buf (off + 1)) 8)

/-- lget32_bint: BigInt variant, exact unsigned 32-bit value. -/
def lget32_bint (buf : Bytes) (off : Int) : Nat :=
  Nat.land (Nat.lor (lget16_bint buf off) (Nat.shiftLeft (lget16_bint buf (off + 2)) 16)) 0xffffffff

/-- lget64_bint: BigInt variant, exact unsigned 64-bit value. -/
def lget64_bint (buf : Bytes) (off : Int) : Nat :=
  Nat.lor (lget32_bint buf off) (Nat.shiftLeft (lget32_bint buf (off + 4)) 32)

/-- The copy loop of arraycopy: for i in [0, n) do dest[destPos+i] = src[srcPos+i]. -/
def copyLoop (src : Bytes) (srcPos : Int) (dest : Bytes) (destPos : Int) : Nat → Bytes
  | 0 => dest
  | n + 1 => jsSet (copyLoop src srcPos dest destPos n) (destPos + n) (jsGet src (srcPos + n))

/-- arraycopy from zip-eocd.js: copy length clamped to what remains of both
buffers past the given positions. -/
def arraycopy (src : Bytes) (srcPos : Int) (dest : Bytes) (destPos : Int) (len : Int) : Bytes :=
  let srcTrunc := max 0 ((src.length : Int) - srcPos)
  let destTrunc := max 0 ((dest.length : Int) - destPos)
  let lim := min len (min srcTrunc destTrunc)
  copyLoop src srcPos dest destPos lim.toNat

/-- getbuf: fresh zero-filled buffer. -/
def getbuf (size : Nat) : Bytes := List.replicate size 0

/-- cp_buf from zip-eocd.js: copy size bytes starting at off into a fresh
buffer (zero padding whatever the source cannot provide). -/
def cp_buf (buf : Bytes) (off : Int) (size : Nat) : Bytes :=
  arraycopy buf off (getbuf size) 0 (size : Int)

/-- resize of resizableBuffer: reallocate to newLen, copying lenToCopy bytes
from origOff to newOff, with the source's clamping rules (len < 0 means the
whole old buffer). -/
def rbResize (buf : Bytes) (newLen : Nat) (origOff newOff len : Int) : Bytes :=
  let tmp := getbuf newLen
  let lenToCopy : Int := if len < 0 then (buf.length : Int) else min (buf.length : Int) len
  let lenToCopy : Int :=
    if ((newLen : Int) - newOff + lenToCopy) > (newLen : Int) then max ((newLen : Int) - newOff) 0
    else lenToCopy
  arraycopy buf origOff tmp newOff lenToCopy

/-- coalesce_front of resizableBuffer: prepend chunk[off, off+len) in front
of the current contents; no-op when len = 0. -/
def coalesce_front (buf chunk : Bytes) (off len : Nat) : Bytes :=
  if len = 0 then buf
  else arraycopy chunk (off : Int) (rbResize buf (buf.length + len) 0 (len : Int) (-1)) 0 (len : Int)

/-- ensureSize of resizableBuffer: resize(size, 0, 0, size) when the current
length exceeds size, otherwise no-op. -/
def ensureSize (buf : Bytes) (size : Nat) : Bytes :=
  if buf.length ≤ size then buf else rbResize buf size 0 0 (size : Int)

/-! Basic lemmas about the copy helpers. -/

theorem jsSet_length (buf : Bytes) (i : Int) (v : Nat) : (jsSet buf i v).length = buf.length := by
  unfold jsSet
  split
  · exact List.length_set ..
  · rfl

theorem copyLoop_length (src : Bytes) (srcPos : Int) (dest : Bytes) (destPos : Int) :
    ∀ n, (copyLoop src srcPos dest destPos n).length = dest.length := by
  intro n
  induction n with
  | zero => rfl
  | succ n ih => simp [copyLoop, jsSet_length, ih]

theorem arraycopy_length (src : Bytes) (srcPos : Int) (dest : Bytes) (destPos len : Int) :
    (arraycopy src srcPos dest destPos len).length = dest.length := by
  unfold arraycopy
  exact copyLoop_length ..

theorem rbResize_length (buf : Bytes) (newLen : Nat) (origOff newOff len : Int) :
    (rbResize buf newLen origOff newOff len).length = newLen := by
  unfold rbResize
  rw [arraycopy_length]
  simp [getbuf]

theorem ensureSize_length_le (buf : Bytes) (size : Nat) :
    (ensureSize buf size).length ≤ size := by
  unfold ensureSize
  split
  · assumption
  · rw [rbResize_length]

/-! Binary layout constants of zip-eocd.js. -/

def SZ_MB_4 : Nat := 4 * 1024 * 1024
def SZ_MB_2 : Nat := 2 * 1024 * 1024
def SZ_LOC_MAX : Nat := 1024

def SIG_EOCD_64 : Int := 0x06064b50
def SIG_EOCD : Int := 0x06054b50
def SIG_CDIR : Int := 0x02014b50
def SIG_LOC : Int := 0x04034b50

/-! Record decoders. -/

/-- Optional field overrides produced by the ZIP64 extra-field walk
(function ZIP64_ext in zip-eocd.js).  A field is `some` exactly when the
corresponding key was put on the JS result object. -/
structure Zip64Ext where
  sz_uncompress : Option Nat := none
  sz_compress : Option Nat := none
  off_loc : Option Nat := none
  num_disk : Option Nat := none
  deriving Repr, DecidableEq, Inhabited

/-- The while loop of ZIP64_ext.  `off` is the base offset of the whole
extra field (the function argument), `cur` the current sub-record offset,
`lim = off + ext_len`.  The loop advances by 4 + sz_data ≥ 4 per iteration,
so any fuel ≥ (lim - cur)/4 + 1 reproduces it exactly; running out of fuel
while cur < lim never happens at the call sites below.  Note the source
reads the 28-byte variant's disk number at off+28 (the extra-field base),
not at the sub-record offset. -/
def zip64ExtGoF (buf : Bytes) (off lim : Int) : Nat → Int → Zip64Ext → Zip64Ext
  | 0, _, acc => acc
  | fuel + 1, cur, acc =>
    if cur < lim then
      let id_hdr := lget16 buf cur
      let sz_data := lget16 buf (cur + 2)
      let acc :=
        if id_hdr = 1 ∧ (sz_data = 24 ∨ sz_data = 28) then
          let acc :=
            { acc with
              sz_uncompress := some (lget64_bint buf (cur + 4))
              sz_compress := some (lget64_bint buf (cur + 12))
              off_loc := some (lget64_bint buf (cur + 20)) }
          if sz_data = 28 then { acc with num_disk := some (lget64_bint buf (off + 28)) } else acc
        else acc
      zip64ExtGoF buf off lim fuel (cur + 4 + sz_data) acc
    else acc

/-- ZIP64_ext from zip-eocd.js: walk the (id, size, data) sub-records of an
extra field, collecting ZIP64 (id 0x0001) overrides of declared size 24 or
28. -/
def ZIP64_ext (buf : Bytes) (off ext_len : Int) : Zip64Ext :=
  zip64ExtGoF buf off (off + ext_len) (ext_len.toNat + 1) off {}

/-- EOCD record as decoded by the EOCD function of zip-eocd.js.  The comment
is kept as raw bytes (the source converts them to a UTF-8 string). -/
structure EOCDRec where
  sig : Int
  num_disk : Nat
  num_disk_cd : Nat
  num_disk_entries_cd : Nat
  num_entries_cd : Nat
  sz_cd : Nat
  off_disk_cd : Nat
  len_comment : Nat
  comment : Bytes
  is_zip_64 : Bool
  deriving Repr, DecidableEq, Inhabited

/-- EOCD from zip-eocd.js: fixed 22-byte header plus comment; is_zip_64 is
derived from the decoded fields exactly as in the source (num_disk,
num_disk_cd, num_disk_entries_cd against 0xffff; sz_cd, off_disk_cd against
0xffffffff; num_entries_cd is not consulted). -/
def EOCD (buf : Bytes) (off : Int) : EOCDRec :=
  let num_disk := lget16 buf (off + 4)
  let num_disk_cd := lget16 buf (off + 6)
  let num_disk_entries_cd := lget16 buf (off + 8)
  let sz_cd := lget32_bint buf (off + 12)
  let off_disk_cd := lget32_bint buf (off + 16)
  let len_comment := lget16 buf (off + 20)
  { sig := lget32 buf off
    num_disk := num_disk
    num_disk_cd := num_disk_cd
    num_disk_entries_cd := num_disk_entries_cd
    num_entries_cd := lget16 buf (off + 10)
    sz_cd := sz_cd
    off_disk_cd := off_disk_cd
    len_comment := len_comment
    comment := cp_buf buf (off + 22) len_comment
    is_zip_64 :=
      num_disk == 0xffff || num_disk_cd == 0xffff || num_disk_entries_cd == 0xffff ||
        sz_cd == 0xffffffff || off_disk_cd == 0xffffffff }

/-- Merged EOCD/EOCD64 record as built by EOCD_64 of zip-eocd.js: the spread
of the previously decoded EOCD record with the widened fields replaced by
the EOCD64 decodes.  zip64_ext is `none` for the 'EOCD_64 EXT TOO LARGE'
string case. -/
structure EOCD64Rec where
  sig : Int
  len_comment : Nat
  comment : Bytes
  is_zip_64 : Bool
  zip64_sig : Int
  sz_eocd64 : Nat
  ver : Nat
  ver_ext : Nat
  num_disk : Nat
  num_disk_cd : Nat
  num_disk_entries_cd : Nat
  num_entries_cd : Nat
  sz_cd : Nat
  off_disk_cd : Nat
  zip64_ext : Option Bytes
  deriving Repr, DecidableEq, Inhabited

/-- EOCD_64 from zip-eocd.js.  Number.MAX_SAFE_INTEGER = 2^53 - 1. -/
def EOCD_64 (buf : Bytes) (off : Int) (eocd : EOCDRec) : EOCD64Rec :=
  let sz_eocd64 := lget64_bint buf (off + 4)
  { sig := eocd.sig
    len_comment := eocd.len_comment
    comment := eocd.comment
    is_zip_64 := eocd.is_zip_64
    zip64_sig := lget32 buf off
    sz_eocd64 := sz_eocd64
    ver := lget16 buf (off + 12)
    ver_ext := lget16 buf (off + 14)
    num_disk := lget32_bint buf (off + 16)
    num_disk_cd := lget32_bint buf (off + 20)
    num_disk_entries_cd := lget64_bint buf (off + 24)
    num_entries_cd := lget64_bint buf (off + 32)
    sz_cd := lget64_bint buf (off + 40)
    off_disk_cd := lget64_bint buf (off + 48)
    zip64_ext :=
      if sz_eocd64 < 9007199254740991 then some (cp_buf buf (off + 56) (sz_eocd64 - 44)) else none }

/-- Central-directory record as decoded by CDIR of zip-eocd.js.  filename
and comment are kept as raw bytes. -/
structure CDIRRec where
  sig : Int
  ver : Nat
  ver_ext : Nat
  flg_gen : Nat
  compression : Nat
  tm_last_mod : Nat
  dt_last_mod : Nat
  crc_32 : Int
  sz_compress : Nat
  sz_uncompress : Nat
  len_filename : Nat
  len_ext : Nat
  len_comment : Nat
  num_disk : Nat
  attrs_int : Nat
  attrs_ext : Nat
  off_loc : Nat
  sz_cdir : Nat
  filename : Bytes
  comment : Bytes
  deriving Repr, DecidableEq, Inhabited

/-- CDIR from zip-eocd.js: fixed 46-byte header, filename/comment copies,
sz_cdir = 46 + the three variable lengths, then the ZIP64 extra-field merge
(object spread) when len_ext > 0. -/
def CDIR (buf : Bytes) (off : Int) : CDIRRec :=
  let len_filename := lget16 buf (off + 28)
  let len_ext := lget16 buf (off + 30)
  let len_comment := lget16 buf (off + 32)
  let base : CDIRRec :=
    { sig := lget32 buf off
      ver := lget16 buf (off + 4)
      ver_ext := lget16 buf (off + 6)
      flg_gen := lget16 buf (off + 8)
      compression := lget16 buf (off + 10)
      tm_last_mod := lget16 buf (off + 12)
      dt_last_mod := lget16 buf (off + 14)
      crc_32 := lget32 buf (off + 16)
      sz_compress := lget32_bint buf (off + 20)
      sz_uncompress := lget32_bint buf (off + 24)
      len_filename := len_filename
      len_ext := len_ext
      len_comment := len_comment
      num_disk := lget16 buf (off + 34)
      attrs_int := lget16 buf (off + 36)
      attrs_ext := lget32_bint buf (off + 38)
      off_loc := lget32_bint buf (off + 42)
      sz_cdir := 46 + len_filename + len_ext + len_comment
      filename := cp_buf buf (off + 46) len_filename
      comment := cp_buf buf (off + 46 + len_filename + len_ext) len_comment }
  if 0 < len_ext then
    let e := ZIP64_ext buf (off + 46 + len_filename) ((len_ext : Int) + 4)
    { base with
      sz_uncompress := e.sz_uncompress.getD base.sz_uncompress
      sz_compress := e.sz_compress.getD base.sz_compress
      off_loc := e.off_loc.getD base.off_loc
      num_disk := e.num_disk.getD base.num_disk }
  else base

/-- Local-file-header record as decoded by LOC of zip-eocd.js.  off_loc and
num_disk are keys only added by the ZIP64 extra-field spread, hence
optional. -/
structure LOCRec where
  sig : Int
  ver : Nat
  flg_gen : Nat
  compression : Nat
  tm_last_mod : Nat
  dt_last_mod : Nat
  crc_32 : Int
  sz_compress : Nat
  sz_uncompress : Nat
  len_filename : Nat
  len_ext : Nat
  filename : Bytes
  sz_loc : Nat
  off_loc : Option Nat
  num_disk : Option Nat
  deriving Repr, DecidableEq, Inhabited

/-- LOC from zip-eocd.js: fixed 30-byte header, filename copy,
sz_loc = 30 + len_filename + len_ext, then the ZIP64 extra-field merge when
len_ext > 0 (the source passes off+46+len_filename as the walk base, as for
CDIR). -/
def LOC (buf : Bytes) (off : Int) : LOCRec :=
  let len_filename := lget16 buf (off + 26)
  let len_ext := lget16 buf (off + 28)
  let base : LOCRec :=
    { sig := lget32 buf off
      ver := lget16 buf (off + 4)
      flg_gen := lget16 buf (off + 6)
      compression := lget16 buf (off + 8)
      tm_last_mod := lget16 buf (off + 10)
      dt_last_mod := lget16 buf (off + 12)
      crc_32 := lget32 buf (off + 14)
      sz_compress := lget32_bint buf (off + 18)
      sz_uncompress := lget32_bint buf (off + 22)
      len_filename := len_filename
      len_ext := len_ext
      filename := cp_buf buf (off + 30) len_filename
      sz_loc := 30 + len_filename + len_ext
      off_loc := none
      num_disk := none }
  if 0 < len_ext then
    let e := ZIP64_ext buf (off + 46 + len_filename) ((len_ext : Int) + 4)
    { base with
      sz_uncompress := e.sz_uncompress.getD base.sz_uncompress
      sz_compress := e.sz_compress.getD base.sz_compress
      off_loc := e.off_loc
      num_disk := e.num_disk }
  else base

/-! Random-access file model and the two scanning loops of zipEOCD.
A byte source is a function from (offset, length) to `Option Bytes`:
`none` models the -1 error return, `some data` a successful read of
data.length bytes into the front of the destination buffer. -/

/-- tail of randomAccessFile on a concrete error-free file: read up to len
bytes ending at filesize - off; -1 (none) when off is past the file size. -/
def fileTail (file : Bytes) (off len : Nat) : Option Bytes :=
  if file.length < off then none
  else
    let e := file.length - off
    some ((file.take e).drop (e - min e len))

/-- head of randomAccessFile on a concrete error-free file: read up to len
bytes starting at off, clamped to the file size; -1 (none) when off is past
the file size. -/
def fileHead (file : Bytes) (off len : Nat) : Option Bytes :=
  if file.length < off then none
  else some ((file.take (min file.length (off + len))).drop off)

/-- State of the EOCD/EOCD64 search loop of zipEOCD: the shared resizable
buffer, the distance-from-end offset, the two flags, and the record decoded
so far (an EOCDRec after a plain-EOCD hit, an EOCD64Rec after a ZIP64
hit). -/
structure LocState where
  rb : Bytes
  offset : Nat
  isZip64 : Bool
  isFound : Bool
  eocd : Option (EOCDRec ⊕ EOCD64Rec)
  deriving Repr, DecidableEq

def locInit : LocState := { rb := [], offset := 0, isZip64 := false, isFound := false, eocd := none }

/-- The backward inner scan of the EOCD loop: try indices start, start-1,
..., 0 and return the first index whose 4-byte little-endian value equals
sig (the source's for loop from lim-4 down to 0). -/
def findSigDown (rb : Bytes) (sig : Int) : Nat → Option Nat
  | 0 => if lget32 rb 0 = sig then some 0 else none
  | i + 1 => if lget32 rb (i + 1) = sig then some (i + 1) else findSigDown rb sig i

inductive LocOut
  | eof
  | cont (s : LocState)
  deriving Repr, DecidableEq

/-- One iteration of the EOCD search loop of zipEOCD: 64-byte tail read,
coalesce in front, backward signature scan of min(len+4, rb.length) bytes,
on a hit trim the buffer to the hit position and decode (EOCD, or EOCD_64
when already flagged ZIP64), then cap the buffer to 64 bytes.  The
`64, default` fallback of the EOCD_64 argument is unreachable: isZip64 is
only set after an EOCDRec has been stored. -/
def locStep (src : Nat → Nat → Option Bytes) (s : LocState) : LocOut :=
  match src s.offset 64 with
  | none => .eof
  | some data =>
    let len := data.length
    let offset := s.offset + len
    let rb := coalesce_front s.rb data 0 len
    let lim := min (len + 4) rb.length
    match (if 4 ≤ lim then findSigDown rb (if s.isZip64 then SIG_EOCD_64 else SIG_EOCD) (lim - 4) else none) with
    | none => .cont { s with rb := ensureSize rb 64, offset := offset }
    | some i =>
      let newLen := rb.length - i
      let rb2 := rbResize rb newLen (i : Int) 0 (newLen : Int)
      let offset2 := rb2.length
      if s.isZip64 then
        let prev := match s.eocd with | some (.inl e) => e | _ => default
        .cont { rb := ensureSize rb2 64, offset := offset2, isZip64 := true, isFound := true,
                eocd := some (.inr (EOCD_64 rb2 0 prev)) }
      else
        let e := EOCD rb2 0
        .cont { rb := ensureSize rb2 64, offset := offset2, isZip64 := e.is_zip_64,
                isFound := !e.is_zip_64, eocd := some (.inl e) }

inductive LocResult
  | eof
  | notFound
  | found (s : LocState) (r : EOCDRec ⊕ EOCD64Rec)
  | outOfFuel
  deriving Repr, DecidableEq

/-- The post-loop check of zipEOCD: throw EOCD-not-found unless a record was
resolved. -/
def locFinish (s : LocState) : LocResult :=
  if s.isFound then
    match s.eocd with
    | some r => .found s r
    | none => .notFound
  else .notFound

/-- The EOCD search loop of zipEOCD, fuel-indexed: while (!isFound && offset
< 4 MiB) run locStep; the source loop has no other bound, so exhausting the
fuel while the condition still holds is reported as outOfFuel. -/
def locRun (src : Nat → Nat → Option Bytes) : Nat → LocState → LocResult
  | 0, s => if s.isFound ∨ SZ_MB_4 ≤ s.offset then locFinish s else .outOfFuel
  | fuel + 1, s =>
    if s.isFound ∨ SZ_MB_4 ≤ s.offset then locFinish s
    else
      match locStep src s with
      | .eof => .eof
      | .cont s' => locRun src fuel s'

/-- State of the central-directory scan loop of zipEOCD. -/
structure CdState where
  rb : Bytes
  offset : Nat
  cdirList : List CDIRRec
  deriving Repr, DecidableEq

/-- The forward inner scan of the central-directory loop: for (i = 0;
i+4 < lim; ++i), on a CDIR signature decode the record, unshift it onto the
accumulated list and advance i past sz_cdir.  i advances by at least 1 per
iteration, so fuel lim.toNat + 1 reproduces the loop exactly. -/
def cdScanF (rb : Bytes) (lim : Int) : Nat → Nat → List CDIRRec → List CDIRRec
  | 0, _, acc => acc
  | fuel + 1, i, acc =>
    if (i : Int) + 4 < lim then
      if lget32 rb (i : Int) = SIG_CDIR then
        let c := CDIR rb (i : Int)
        cdScanF rb lim fuel (i + c.sz_cdir) (c :: acc)
      else cdScanF rb lim fuel (i + 1) acc
    else acc

/-- One iteration of the central-directory loop of zipEOCD: head read of
min(offset - cdStart, 2 MiB) bytes ending at offset, coalesce in front,
forward CDIR scan, cap the buffer to 2 MiB.  none = the EOF throw. -/
def cdStep (src : Nat → Nat → Option Bytes) (cdStart : Nat) (s : CdState) : Option CdState :=
  let bytesLeft := s.offset - cdStart
  let readsz := min bytesLeft SZ_MB_2
  let head_offset := s.offset - readsz
  match src head_offset readsz with
  | none => none
  | some data =>
    let len := data.length
    let offset := s.offset - len
    let rb := coalesce_front s.rb data 0 len
    let lim := min ((len : Int) + 4) (rb.length : Int)
    let cdirList := cdScanF rb lim (lim.toNat + 1) 0 s.cdirList
    some { rb := ensureSize rb SZ_MB_2, offset := offset, cdirList := cdirList }

inductive CdResult
  | eof
  | ok (l : List CDIRRec)
  | outOfFuel
  deriving Repr, DecidableEq

/-- The central-directory loop of zipEOCD, fuel-indexed: while (offset >
cdStart) run cdStep. -/
def cdRun (src : Nat → Nat → Option Bytes) (cdStart : Nat) : Nat → CdState → CdResult
  | 0, s => if s.offset ≤ cdStart then .ok s.cdirList else .outOfFuel
  | fuel + 1, s =>
    if s.offset ≤ cdStart then .ok s.cdirList
    else
      match cdStep src cdStart s with
      | none => .eof
      | some s' => cdRun src cdStart fuel s'

/-- num_entries_cd of whichever record the locator resolved. -/
def resolvedNumEntries : EOCDRec ⊕ EOCD64Rec → Nat
  | .inl e => e.num_entries_cd
  | .inr e => e.num_entries_cd

/-- off_disk_cd of whichever record the locator resolved. -/
def resolvedOffDiskCd : EOCDRec ⊕ EOCD64Rec → Nat
  | .inl e => e.off_disk_cd
  | .inr e => e.off_disk_cd

/-- sz_cd of whichever record the locator resolved. -/
def resolvedSzCd : EOCDRec ⊕ EOCD64Rec → Nat
  | .inl e => e.sz_cd
  | .inr e => e.sz_cd

inductive ZipResult
  | eof
  | eocdNotFound
  | countMismatch (expected actual : Nat)
  | ok (eocd : EOCDRec ⊕ EOCD64Rec) (cdirList : List CDIRRec)
  | outOfFuel
  deriving Repr, DecidableEq

/-- The top-level zipEOCD of zip-eocd.js (without the on-demand unzip/close
members): EOCD search, then the central-directory scan over
[off_disk_cd, off_disk_cd + sz_cd) reusing the same resizable buffer, then
the final record-count check.  zip-eocd.js performs no multi-disk check. -/
def zipEOCDRun (file : Bytes) (fuel1 fuel2 : Nat) : ZipResult :=
  match locRun (fileTail file) fuel1 locInit with
  | .eof => .eof
  | .notFound => .eocdNotFound
  | .outOfFuel => .outOfFuel
  | .found s r =>
    let cdStart := resolvedOffDiskCd r
    let cdEnd := cdStart + resolvedSzCd r
    match cdRun (fileHead file) cdStart fuel2 { rb := s.rb, offset := cdEnd, cdirList := [] } with
    | .eof => .eof
    | .outOfFuel => .outOfFuel
    | .ok l =>
      if resolvedNumEntries r ≠ l.length then .countMismatch (resolvedNumEntries r) l.length
      else .ok r l

/-- The cdirList component of a ZipResult, for stating results. -/
def zipCdirs : ZipResult → Option (List CDIRRec)
  | .ok _ l => some l
  | _ => none

/-! The entry extractor readentry of zip-eocd.js.  The CRC-32 collaborator
(crc-32 package, signed 32-bit result compared with the signed lget32 of
the local header) and the raw-inflate collaborator (zlib.inflateRawSync,
which throws on malformed input) are abstract parameters. -/

/-- TypedArray.subarray with both bounds clamped to the buffer. -/
def subarrayN (buf : Bytes) (a b : Nat) : Bytes := (buf.take b).drop a

inductive ReadErr
  | readFail
  | badLoc
  | crcMismatch
  | inflateErr
  | unsupported
  deriving Repr, DecidableEq

/-- Result of readentry: the extracted bytes or the thrown error. -/
inductive EntryResult
  | ok (b : Bytes)
  | error (e : ReadErr)
  deriving Repr, DecidableEq

/-- Size of the read window of readentry: SZ_LOC_MAX + cdir.sz_compress. -/
def entrySize (cdir : CDIRRec) : Nat := SZ_LOC_MAX + cdir.sz_compress

/-- The buf_entry of readentry: a zero-filled buffer of entrySize whose
front was filled by the head read. -/
def entryBuf (cdir : CDIRRec) (data : Bytes) : Bytes :=
  data ++ List.replicate (entrySize cdir - data.length) 0

/-- The local header readentry decodes at offset 0 of buf_entry. -/
def entryLoc (cdir : CDIRRec) (data : Bytes) : LOCRec := LOC (entryBuf cdir data) 0

/-- The buf_data of readentry: the compressed-payload slice
buf_entry.subarray(loc.sz_loc, loc.sz_loc + loc.sz_compress). -/
def entryPayload (cdir : CDIRRec) (data : Bytes) : Bytes :=
  subarrayN (entryBuf cdir data) (entryLoc cdir data).sz_loc
    ((entryLoc cdir data).sz_loc + (entryLoc cdir data).sz_compress)

/-- readentry from zip-eocd.js: read the local header plus data window at
cdir.off_loc, parse the local header, isolate the compressed payload
[sz_loc, sz_loc + sz_compress), then dispatch on the CDIR compression
method: store (0) verifies the payload's CRC-32 against the local header's
crc_32 and returns the payload; deflate (8) raw-inflates first; every other
method id throws 'Invalid compression method'. -/
def readentry (file : Bytes) (crc : Bytes → Int) (inflateRaw : Bytes → Option Bytes)
    (cdir : CDIRRec) : EntryResult :=
  match fileHead file cdir.off_loc (entrySize cdir) with
  | none => .error .readFail
  | some data =>
    let loc := entryLoc cdir data
    if loc.sig ≠ SIG_LOC then .error .badLoc
    else
      let buf_data := entryPayload cdir data
      if cdir.compression = 0 then
        if crc buf_data = loc.crc_32 then .ok buf_data else .error .crcMismatch
      else if cdir.compression = 8 then
        match inflateRaw buf_data with
        | none => .error .inflateErr
        | some inflated => if crc inflated = loc.crc_32 then .ok inflated else .error .crcMismatch
      else .error .unsupported

/-! The multi-disk post-condition check.  zip-eocd.js has no such check; the
zipEOCD variant in src/unnamed/part_000 (lines 434-436) guards the
central-directory scan with

  if (eocd.num_disk !== 0n || eocd.num_disk_cd !== 0n) throw 'Multiple disks'

where the resolved record's disk fields are plain JS Numbers on the
non-ZIP64 path (lget16) and BigInts on the ZIP64 path (lget32_bint).  JS
strict (in)equality between a Number and a BigInt is always true, which the
model below captures. -/

inductive JSNum
  | num (n : Nat)
  | big (n : Nat)
  deriving Repr, DecidableEq

/-- JS strict inequality !== between numeric values: values of different
runtime types (Number vs BigInt) are always strictly unequal. -/
def jsStrictNe : JSNum → JSNum → Bool
  | .num a, .num b => !(a == b)
  | .big a, .big b => !(a == b)
  | _, _ => true

/-- The disk fields of the resolved record with their part_000 JS runtime
types: Numbers from the 16-bit EOCD decode, BigInts from the EOCD64
decode. -/
def p000DiskFields : EOCDRec ⊕ EOCD64Rec → JSNum × JSNum
  | .inl e => (.num e.num_disk, .num e.num_disk_cd)
  | .inr e => (.big e.num_disk, .big e.num_disk_cd)

/-- Whether the part_000 multi-disk guard throws on a resolved record. -/
def p000MultiDiskThrows (r : EOCDRec ⊕ EOCD64Rec) : Bool :=
  jsStrictNe (p000DiskFields r).1 (.big 0) || jsStrictNe (p000DiskFields r).2 (.big 0)

/-! Concrete archives used as test vectors. -/

/-- A minimal 46-byte CDIR record: version-made-by 1, local-header offset
111, every variable-length field empty. -/
def cdirBytesA : Bytes :=
  [80, 75, 1, 2, 1, 0, 0, 0, 0, 0, 0, 0, 0, 0, 0, 0, 0, 0, 0, 0, 0, 0, 0, 0,
   0, 0, 0, 0, 0, 0, 0, 0, 0, 0, 0, 0, 0, 0, 0, 0, 0, 0, 111, 0, 0, 0]

/-- A minimal 46-byte CDIR record: version-made-by 2, local-header offset
222. -/
def cdirBytesB : Bytes :=
  [80, 75, 1, 2, 2, 0, 0, 0, 0, 0, 0, 0, 0, 0, 0, 0, 0, 0, 0, 0, 0, 0, 0, 0,
   0, 0, 0, 0, 0, 0, 0, 0, 0, 0, 0, 0, 0, 0, 0, 0, 0, 0, 222, 0, 0, 0]

/-- A 22-byte EOCD record: 2 entries, central directory of 92 bytes starting
at offset 0, both disk fields 0, no comment. -/
def eocdTwoEntries : Bytes :=
  [80, 75, 5, 6, 0, 0, 0, 0, 2, 0, 2, 0, 92, 0, 0, 0, 0, 0, 0, 0, 0, 0]

/-- A complete 114-byte single-disk archive consisting of two CDIR records
followed by the EOCD record (the two local entries are not needed by the
scanning passes). -/
def file114 : Bytes := cdirBytesA ++ cdirBytesB ++ eocdTwoEntries

/-- A CDIR record whose 40-byte extra field holds an AV (id 0x0007, size 4)
sub-record followed by a ZIP64 (id 0x0001) sub-record of declared size 28:
uncompressed size 100, compressed size 200, local-header offset 300, disk
number 400 (low half; the read of the 8-byte disk value runs past the
sub-record, the remaining bytes being out of range and hence 0).  The fixed
32-bit header fields are non-sentinel: sz_compress 9, sz_uncompress 8,
num_disk 5, off_loc 77. -/
def cdirZip64 : Bytes :=
  [80, 75, 1, 2, 0, 0, 0, 0, 0, 0, 0, 0, 0, 0, 0, 0, 0, 0, 0, 0, 9, 0, 0, 0,
   8, 0, 0, 0, 0, 0, 40, 0, 0, 0, 5, 0, 0, 0, 0, 0, 0, 0, 77, 0, 0, 0] ++
  [7, 0, 4, 0, 0, 0, 0, 0] ++
  [1, 0, 28, 0] ++ [100, 0, 0, 0, 0, 0, 0, 0] ++ [200, 0, 0, 0, 0, 0, 0, 0] ++
  [44, 1, 0, 0, 0, 0, 0, 0] ++ [144, 1, 0, 0]

/-- A 56-byte EOCD64 record (no extensible sector): 7 entries, central
directory of 333 bytes at offset 1000, both disk fields 0. -/
def eocd64Bytes : Bytes :=
  [80, 75, 6, 6] ++ [44, 0, 0, 0, 0, 0, 0, 0] ++ [45, 0] ++ [45, 0] ++
  [0, 0, 0, 0] ++ [0, 0, 0, 0] ++ [7, 0, 0, 0, 0, 0, 0, 0] ++ [7, 0, 0, 0, 0, 0, 0, 0] ++
  [77, 1, 0, 0, 0, 0, 0, 0] ++ [232, 3, 0, 0, 0, 0, 0, 0]

/-- A 22-byte EOCD record whose sz_cd field is the 0xffffffff ZIP32
sentinel (so is_zip_64 holds). -/
def eocdSentinelSzCd : Bytes :=
  [80, 75, 5, 6, 0, 0, 0, 0, 0, 0, 0, 0, 255, 255, 255, 255, 0, 0, 0, 0, 0, 0]

/-- A 78-byte ZIP64 archive tail: the EOCD64 record followed by the
sentinel-flagged EOCD record. -/
def file78 : Bytes := eocd64Bytes ++ eocdSentinelSzCd

/-- A 22-byte EOCD record whose total-entries count is the 0xffff sentinel
while every other field is 0. -/
def eocdSentinelEntries : Bytes :=
  [80, 75, 5, 6, 0, 0, 0, 0, 0, 0, 255, 255, 0, 0, 0, 0, 0, 0, 0, 0, 0, 0]

/-- A 22-byte EOCD record whose disk-number field is the 0xffff sentinel
while every other field is 0. -/
def eocdSentinelDisk : Bytes :=
  [80, 75, 5, 6, 255, 255, 0, 0, 0, 0, 0, 0, 0, 0, 0, 0, 0, 0, 0, 0, 0, 0]

/-- An 8-byte file of zeros: shorter than the 4 MiB search ceiling and
containing no EOCD signature. -/
def file8 : Bytes := List.replicate 8 0

/-- The state the EOCD search reaches on file8 after its first pass: the
whole file in the buffer and offset = filesize; every further pass reads 0
bytes and reproduces it. -/
def stuck8 : LocState :=
  { rb := List.replicate 8 0, offset := 8, isZip64 := false, isFound := false, eocd := none }

/-- Modelled from the spec: the is_zip64 derivation the spec states, over
the four size/offset/count fields (entries-on-this-disk count, total-entries
count, central-directory size, central-directory start offset), for
comparison with the derivation the code performs. -/
def claimIsZip64 (e : EOCDRec) : Bool :=
  e.num_disk_entries_cd == 0xffff || e.num_entries_cd == 0xffff ||
    e.sz_cd == 0xffffffff || e.off_disk_cd == 0xffffffff

/-- The forward-discovery list of one central-directory scan pass: the CDIR
records matched by cdScanF in the order the forward scan finds them
(ascending start position). -/
def cdMatchesF (rb : Bytes) (lim : Int) : Nat → Nat → List CDIRRec
  | 0, _ => []
  | fuel + 1, i =>
    if (i : Int) + 4 < lim then
      if lget32 rb (i : Int) = SIG_CDIR then
        CDIR rb (i : Int) :: cdMatchesF rb lim fuel (i + (CDIR rb (i : Int)).sz_cdir)
      else cdMatchesF rb lim fuel (i + 1)
    else []

/-! Claim C1. -/

/-- C1: the multiple-disks guard is claimed to reject exactly the archives
whose resolved record has a non-zero disk field.  On the code it misfires:
part_000's guard compares the plain-Number disk fields of a non-ZIP64
EOCD record against BigInt 0n with strict !==, which is true for every
Number, so the resolved record of this single-disk archive — both disk
fields 0 — is rejected with the multiple-disks error (and zip-eocd.js has
no such guard at all). -/
theorem c1_zip32_zero_disks_rejected :
    (EOCD eocdTwoEntries 0).num_disk = 0 ∧ (EOCD eocdTwoEntries 0).num_disk_cd = 0 ∧
      p000MultiDiskThrows (.inl (EOCD eocdTwoEntries 0)) = true := by
  decide

/-! Claim C2. -/

/-- C2 counterexample: on a 114-byte archive whose 92-byte central directory
holds two records (at positions 0 and 46, local-header offsets 111 and 222)
discovered in a single scan pass, the successful top-level run returns
cdirList = [record at 46, record at 0] — descending position, not the
claimed ascending file order (the two records differ). -/
theorem c2_counterexample :
    zipCdirs (zipEOCDRun file114 10 10) = some [CDIR file114 46, CDIR file114 0] ∧
      (CDIR file114 46).off_loc = 222 ∧ (CDIR file114 0).off_loc = 111 ∧
      CDIR file114 46 ≠ CDIR file114 0 := by
  decide

/-- C2 amended: within one scan pass the records are accumulated in reverse
discovery order — cdScanF prepends each forward-scan match, so a pass
contributes the reverse of its forward-discovery list in front of the
previously accumulated records.  The list is therefore in file order across
passes but in descending position order within each pass. -/
theorem c2_pass_reverses_discovery_order (rb : Bytes) (lim : Int) :
    ∀ (fuel : Nat) (i : Nat) (acc : List CDIRRec),
      cdScanF rb lim fuel i acc = (cdMatchesF rb lim fuel i).reverse ++ acc := by
  intro fuel
  induction fuel with
  | zero => intro i acc; rfl
  | succ fuel ih =>
    intro i acc
    rw [cdScanF, cdMatchesF]
    split
    · split
      · rw [ih]
        simp
      · rw [ih]
    · rfl

/-! Claim C3. -/

/-- C3 counterexample: ensure_size(2) on the 3-byte buffer [1, 2, 3] yields
[1, 2] — the first 2 bytes — not the last 2 bytes [2, 3] the claim
requires. -/
theorem c3_counterexample :
    ensureSize [1, 2, 3] 2 = [1, 2] ∧
      ensureSize [1, 2, 3] 2 ≠ List.drop ([1, 2, 3].length - 2) [1, 2, 3] := by
  decide

/-! Claim C6. -/

/-- C6 counterexample: an EOCD record whose total-entries count is 0xffff
(everything else 0) is not flagged ZIP64 by the code although the claimed
four-field rule says it must be; an EOCD record whose disk-number field is
0xffff is flagged ZIP64 by the code although none of the claimed four
fields is a sentinel. -/
theorem c6_counterexample :
    ((EOCD eocdSentinelEntries 0).is_zip_64 = false ∧
        claimIsZip64 (EOCD eocdSentinelEntries 0) = true) ∧
      ((EOCD eocdSentinelDisk 0).is_zip_64 = true ∧
        claimIsZip64 (EOCD eocdSentinelDisk 0) = false) := by
  decide

/-- C6 amended: is_zip_64 is true iff any of the five fields num_disk,
num_disk_cd, num_disk_entries_cd (against 0xFFFF), sz_cd, off_disk_cd
(against 0xFFFFFFFF) is a sentinel; the total-entries count num_entries_cd
is not consulted, while the two disk-number fields are. -/
theorem c6_is_zip64_rule (buf : Bytes) (off : Int) :
    (EOCD buf off).is_zip_64 =
      ((EOCD buf off).num_disk == 0xffff || (EOCD buf off).num_disk_cd == 0xffff ||
        (EOCD buf off).num_disk_entries_cd == 0xffff || (EOCD buf off).sz_cd == 0xffffffff ||
        (EOCD buf off).off_disk_cd == 0xffffffff) := by
  rfl

/-! Claim C7. -/

/-- C7: the merged EOCD64 record's disk numbers, entry counts,
central-directory size and start offset equal the widened 64-bit decodes of
the EOCD64 buffer for every input (hence never the 32-bit values of the
EOCD record passed in); and on a concrete ZIP64 archive (sentinel sz_cd in
the EOCD), the locator continues past the EOCD hit, finds the EOCD64
record and resolves the merged record with the widened values 7, 333,
1000. -/
theorem c7_zip64_merge :
    (∀ (buf : Bytes) (off : Int) (e : EOCDRec),
        (EOCD_64 buf off e).num_disk = lget32_bint buf (off + 16) ∧
          (EOCD_64 buf off e).num_disk_cd = lget32_bint buf (off + 20) ∧
          (EOCD_64 buf off e).num_disk_entries_cd = lget64_bint buf (off + 24) ∧
          (EOCD_64 buf off e).num_entries_cd = lget64_bint buf (off + 32) ∧
          (EOCD_64 buf off e).sz_cd = lget64_bint buf (off + 40) ∧
          (EOCD_64 buf off e).off_disk_cd = lget64_bint buf (off + 48)) ∧
      ((EOCD (file78.drop 56) 0).is_zip_64 = true ∧
        (EOCD (file78.drop 56) 0).sz_cd = 0xffffffff ∧
        locRun (fileTail file78) 10 locInit =
          .found
            { rb := ensureSize file78 64, offset := 78, isZip64 := true, isFound := true,
              eocd := some (.inr (EOCD_64 file78 0 (EOCD (file78.drop 56) 0))) }
            (.inr (EOCD_64 file78 0 (EOCD (file78.drop 56) 0))) ∧
        (EOCD_64 file78 0 (EOCD (file78.drop 56) 0)).num_entries_cd = 7 ∧
        (EOCD_64 file78 0 (EOCD (file78.drop 56) 0)).sz_cd = 333 ∧
        (EOCD_64 file78 0 (EOCD (file78.drop 56) 0)).off_disk_cd = 1000) := by
  constructor
  · intro buf off e
    exact ⟨rfl, rfl, rfl, rfl, rfl, rfl⟩
  · decide

/-! Claim C5. -/

theorem zip64ExtGoF_of_not_lt (buf : Bytes) (off lim : Int) :
    ∀ (fuel : Nat) (cur : Int) (acc : Zip64Ext), ¬cur < lim →
      zip64ExtGoF buf off lim fuel cur acc = acc := by
  intro fuel cur acc h
  cases fuel with
  | zero => rfl
  | succ fuel => rw [zip64ExtGoF, if_neg h]

/-- C5 counterexample: a CDIR record whose extra field is an AV sub-record
followed by a ZIP64 sub-record of declared size 28 holding disk number 400.
The decoded sizes and local offset are taken from the sub-record as
claimed, but the decoded disk number is 300 — the value at offset 28 from
the start of the extra field, which here is the sub-record's local-offset
field — not the 400 stored in the sub-record's disk-number field. -/
theorem c5_counterexample :
    lget16 cdirZip64 54 = 1 ∧ lget16 cdirZip64 56 = 28 ∧
      (CDIR cdirZip64 0).sz_uncompress = 100 ∧ (CDIR cdirZip64 0).sz_compress = 200 ∧
      (CDIR cdirZip64 0).off_loc = 300 ∧
      lget64_bint cdirZip64 82 = 400 ∧ (CDIR cdirZip64 0).num_disk = 300 ∧
      (CDIR cdirZip64 0).num_disk ≠ lget64_bint cdirZip64 82 := by
  decide

/-- C5 amended: when the extra-field walk (shared by CDIR and LOC) reaches a
ZIP64 sub-record of declared size 24 or 28 at offset cur that extends to
the walk limit, the uncompressed size, compressed size and local-header
offset are overridden by the 64-bit values at cur+4, cur+12, cur+20 as the
claim states; the 28-byte variant's disk number, however, is read at
offset 28 from the base of the extra field (off+28), which coincides with
the sub-record's disk-number field only when the sub-record starts the
extra field. -/
theorem c5_zip64_ext_override (buf : Bytes) (off lim : Int) (fuel : Nat) (cur : Int)
    (acc : Zip64Ext) (sz : Nat) (h1 : cur < lim) (h2 : lim ≤ cur + 4 + sz)
    (hid : lget16 buf cur = 1) (hsz : lget16 buf (cur + 2) = sz) (h24 : sz = 24 ∨ sz = 28) :
    zip64ExtGoF buf off lim (fuel + 1) cur acc =
      { acc with
        sz_uncompress := some (lget64_bint buf (cur + 4))
        sz_compress := some (lget64_bint buf (cur + 12))
        off_loc := some (lget64_bint buf (cur + 20))
        num_disk := if sz = 28 then some (lget64_bint buf (off + 28)) else acc.num_disk } := by
  rw [zip64ExtGoF, if_pos h1]
  simp only [hid, hsz]
  rcases h24 with h | h <;> subst h
  · norm_num
    rw [zip64ExtGoF_of_not_lt buf off lim fuel _ _ (by omega)]
  · norm_num
    rw [zip64ExtGoF_of_not_lt buf off lim fuel _ _ (by omega)]

/-! Claim C3, continued: what ensure_size actually keeps. -/

theorem copyLoop_take (src dest : Bytes) (hb : ∀ b ∈ src, b < 256) :
    ∀ n, n ≤ src.length → n ≤ dest.length →
      copyLoop src 0 dest 0 n = src.take n ++ dest.drop n := by
  intro n
  induction n with
  | zero => simp [copyLoop]
  | succ n ih =>
    intro h1 h2
    have hn1 : n < src.length := by omega
    have hn2 : n < dest.length := by omega
    have hv : src[n] < 256 := hb _ (List.getElem_mem hn1)
    rw [copyLoop, ih (by omega) (by omega)]
    have hget : jsGet src (0 + (n : Int)) = src[n] := by
      simp [jsGet, List.getD_eq_getElem?_getD, List.getElem?_eq_getElem hn1]
    rw [hget]
    have hlen : (src.take n ++ dest.drop n).length = dest.length := by
      simp
      omega
    have hset : jsSet (src.take n ++ dest.drop n) (0 + (n : Int)) src[n] =
        (src.take n ++ dest.drop n).set n (src[n] % 256) := by
      unfold jsSet
      rw [if_pos]
      · norm_num
      · constructor
        · omega
        · rw [hlen]
          omega
    rw [hset, Nat.mod_eq_of_lt hv]
    rw [List.set_append]
    have htk : (src.take n).length = n := by simp; omega
    rw [if_neg (by omega)]
    rw [htk]
    norm_num
    rw [List.drop_eq_getElem_cons hn2]
    simp only [List.set]
    rw [List.take_succ, List.getElem?_eq_getElem hn1, Option.toList_some, List.append_assoc,
      List.singleton_append]

/-- C3 amended: ensure_size(maxLength) keeps the FIRST maxLength bytes of
the buffer (dropping the back) when the current length exceeds maxLength —
resize(size, 0, 0, size) copies from source offset 0 — and leaves the
buffer unchanged otherwise; equivalently the buffer afterwards is always
the length-maxLength front of its previous contents. -/
theorem c3_ensure_size_keeps_front (buf : Bytes) (size : Nat) (hb : ∀ b ∈ buf, b < 256) :
    ensureSize buf size = buf.take size := by
  unfold ensureSize
  split
  · next h => exact (List.take_of_length_le h).symm
  · next h =>
    have hlt : size < buf.length := by omega
    simp only [rbResize, arraycopy, getbuf, List.length_replicate]
    have h0 : ¬((size : Int) < 0) := by omega
    simp only [if_neg h0]
    have key : copyLoop buf 0 (List.replicate size 0) 0 size = List.take size buf := by
      rw [copyLoop_take buf (List.replicate size 0) hb size (by omega) (by simp)]
      simp
    split_ifs with hg
    · convert key using 2
      omega
    · convert key using 2
      omega

/-- C3 amended, witness: ensure_size(2) on [5, 6, 7] keeps the front [5, 6]. -/
theorem c3_ensure_size_keeps_front_witness :
    (∀ b ∈ [(5 : Nat), 6, 7], b < 256) ∧ ensureSize [5, 6, 7] 2 = List.take 2 [5, 6, 7] :=
  ⟨by decide, c3_ensure_size_keeps_front [5, 6, 7] 2 (by decide)⟩

/-- C5 amended, witness: the ZIP64 sub-record of cdirZip64 (walk base 46,
sub-record at 54, declared size 28) with the walk limit at the sub-record's
end. -/
theorem c5_zip64_ext_override_witness :
    ((54 : Int) < 86 ∧ (86 : Int) ≤ 54 + 4 + 28 ∧ lget16 cdirZip64 54 = 1 ∧
        lget16 cdirZip64 56 = 28) ∧
      zip64ExtGoF cdirZip64 46 86 44 54 {} =
        { sz_uncompress := some (lget64_bint cdirZip64 58)
          sz_compress := some (lget64_bint cdirZip64 66)
          off_loc := some (lget64_bint cdirZip64 74)
          num_disk := some (lget64_bint cdirZip64 74) } :=
  ⟨⟨by decide, by decide, by decide, by decide⟩, by
    rw [show (44 : Nat) = 43 + 1 from rfl]
    rw [c5_zip64_ext_override cdirZip64 46 86 43 54 {} 28 (by decide) (by decide) (by decide)
        (by decide) (Or.inr rfl)]
    decide⟩

/-! Claim C4. -/

theorem locStep_file8_stuck : locStep (fileTail file8) stuck8 = .cont stuck8 := by
  decide

theorem locRun_file8_stuck :
    ∀ fuel : Nat, locRun (fileTail file8) fuel stuck8 = .outOfFuel := by
  intro fuel
  induction fuel with
  | zero => decide
  | succ fuel ih =>
    rw [locRun, if_neg (by decide), locStep_file8_stuck]
    exact ih

/-- C4: the EOCD search on a file with no EOCD signature.  On an 8-byte
all-zero file — shorter than the 4 MiB ceiling — the loop never terminates:
once the offset reaches the file size every tail read returns 0 bytes, the
state repeats, and for every fuel the run is still in the loop, so the
EOCD-not-found error claimed for every signature-free file is never
raised (the ceiling 'offset < 4 MiB' can only be exhausted when the file
itself is at least 4 MiB).  A tail read reporting -1 does abort the
first pass with the EOF error, as the claim states. -/
theorem c4_search_never_terminates_on_small_file :
    (∀ fuel : Nat, locRun (fileTail file8) fuel locInit = .outOfFuel) ∧
      (∀ fuel : Nat, locRun (fun _ _ => none) (fuel + 1) locInit = .eof) := by
  constructor
  · intro fuel
    cases fuel with
    | zero => decide
    | succ fuel =>
      rw [locRun, if_neg (by decide),
        show locStep (fileTail file8) locInit = .cont stuck8 from by decide]
      exact locRun_file8_stuck fuel
  · intro fuel
    rw [locRun, if_neg (by decide),
      show locStep (fun _ _ => none) locInit = .eof from by decide]

/-! Claim C9. -/

/-- C9: every successful outer-loop iteration of the EOCD search ends with
ensureSize(64) and every iteration of the central-directory scan with
ensureSize(2 MiB), so the buffer after an iteration never exceeds twice the
pass's read-chunk size (indeed never exceeds one chunk size), for any byte
source and any starting state. -/
theorem c9_buffer_ceiling :
    (∀ (src : Nat → Nat → Option Bytes) (s s' : LocState),
        locStep src s = .cont s' → s'.rb.length ≤ 2 * 64) ∧
      (∀ (src : Nat → Nat → Option Bytes) (cdStart : Nat) (s s' : CdState),
        cdStep src cdStart s = some s' → s'.rb.length ≤ 2 * SZ_MB_2) := by
  constructor
  · intro src s s' h
    unfold locStep at h
    split at h
    · exact absurd h (by simp)
    · split at h <;> dsimp only at h <;> split at h <;>
        (simp only [LocOut.cont.injEq] at h; subst h;
          exact le_trans (ensureSize_length_le _ _) (by omega))
  · intro src cdStart s s' h
    unfold cdStep at h
    dsimp only at h
    split at h
    · exact absurd h (by simp)
    · simp only [Option.some.injEq] at h
      subst h
      exact le_trans (ensureSize_length_le _ _) (by omega)

/-- C9 witness: one empty-read iteration of each loop from the initial
states. -/
theorem c9_buffer_ceiling_witness :
    (locStep (fun _ _ => some []) locInit = .cont locInit ∧ locInit.rb.length ≤ 2 * 64) ∧
      (cdStep (fun _ _ => some []) 0 { rb := [], offset := 0, cdirList := [] } =
          some { rb := [], offset := 0, cdirList := [] } ∧
        ({ rb := [], offset := 0, cdirList := [] } : CdState).rb.length ≤ 2 * SZ_MB_2) :=
  ⟨⟨by decide, c9_buffer_ceiling.1 (fun _ _ => some []) locInit locInit (by decide)⟩,
    ⟨by decide,
      c9_buffer_ceiling.2 (fun _ _ => some []) 0 { rb := [], offset := 0, cdirList := [] }
        { rb := [], offset := 0, cdirList := [] } (by decide)⟩⟩

/-! Claim C10. -/

theorem copyLoop_getD_of_le (src : Bytes) (srcPos : Int) (dest : Bytes) (d : Nat) (i : Nat) :
    ∀ n, n ≤ i → (copyLoop src srcPos dest 0 n).getD i d = dest.getD i d := by
  intro n
  induction n with
  | zero => intro _; rfl
  | succ n ih =>
    intro h
    rw [copyLoop]
    unfold jsSet
    split
    · rw [show ((0 : Int) + (n : Int)).toNat = n from by omega]
      rw [List.getD_eq_getElem?_getD, List.getElem?_set_ne (by omega), ← List.getD_eq_getElem?_getD]
      exact ih (by omega)
    · exact ih (by omega)

/-- C10: totality and clamping of the little-endian accessors and copy
helpers: an out-of-range byte read yields 0; arraycopy never changes the
destination's length (its copy range is clamped to both buffers, so no
out-of-bounds write occurs) for every buffer, every — possibly negative —
offset and every length; cp_buf always returns exactly size bytes and
zero-pads every position the requested range places past the source's
end. -/
theorem c10_helpers_total :
    (∀ (buf : Bytes) (i : Int), (i < 0 ∨ (buf.length : Int) ≤ i) → jsGet buf i = 0) ∧
      (∀ (src : Bytes) (srcPos : Int) (dest : Bytes) (destPos len : Int),
        (arraycopy src srcPos dest destPos len).length = dest.length) ∧
      (∀ (buf : Bytes) (off : Int) (size : Nat), (cp_buf buf off size).length = size) ∧
      (∀ (buf : Bytes) (off : Int) (size i : Nat), i < size → (buf.length : Int) ≤ off + i →
        (cp_buf buf off size).getD i 1 = 0) := by
  refine ⟨?_, ?_, ?_, ?_⟩
  · intro buf i h
    unfold jsGet
    rcases h with h | h
    · rw [if_neg (by omega)]
    · rw [if_pos (by omega)]
      rw [List.getD_eq_getElem?_getD, List.getElem?_eq_none (by omega)]
      rfl
  · intro src srcPos dest destPos len
    exact arraycopy_length ..
  · intro buf off size
    unfold cp_buf
    rw [arraycopy_length]
    simp [getbuf]
  · intro buf off size i hi hpast
    simp only [cp_buf, arraycopy, getbuf, List.length_replicate]
    rw [copyLoop_getD_of_le buf off (List.replicate size 0) 1 i _ (by omega)]
    rw [List.getD_eq_getElem?_getD, List.getElem?_replicate, if_pos hi]
    rfl

/-- C10 witness: an out-of-range read, a copy whose requested length
exceeds the destination, and a cp_buf whose range runs past the source. -/
theorem c10_helpers_total_witness :
    jsGet [1, 2] 5 = 0 ∧ (arraycopy [1, 2, 3] 0 [9, 9] 0 3).length = 2 ∧
      (cp_buf [1] 0 4).length = 4 ∧ (cp_buf [1] 0 4).getD 2 1 = 0 :=
  ⟨c10_helpers_total.1 [1, 2] 5 (Or.inr (by decide)),
    c10_helpers_total.2.1 [1, 2, 3] 0 [9, 9] 0 3,
    c10_helpers_total.2.2.1 [1] 0 4,
    c10_helpers_total.2.2.2 [1] 0 4 2 (by decide) (by decide)⟩

/-! Claim C8. -/

/-- A 33-byte file holding one local entry: a 30-byte local header (store,
recorded CRC-32 = 5, compressed and uncompressed size 3, no filename or
extra field) followed by the 3-byte stored payload [10, 20, 30]. -/
def locFile33 : Bytes :=
  [80, 75, 3, 4, 0, 0, 0, 0, 0, 0, 0, 0, 0, 0, 5, 0, 0, 0, 3, 0, 0, 0, 3, 0, 0, 0, 0, 0, 0, 0] ++
    [10, 20, 30]

/-- A CDIR record pointing at the entry of locFile33: method store,
compressed size 3, local-header offset 0. -/
def cdirStore3 : CDIRRec :=
  { sig := SIG_CDIR, ver := 0, ver_ext := 0, flg_gen := 0, compression := 0, tm_last_mod := 0,
    dt_last_mod := 0, crc_32 := 0, sz_compress := 3, sz_uncompress := 3, len_filename := 0,
    len_ext := 0, len_comment := 0, num_disk := 0, attrs_int := 0, attrs_ext := 0, off_loc := 0,
    sz_cdir := 46, filename := [], comment := [] }

/-- A CRC-32 collaborator that reports 5 for every input. -/
def crcConst5 : Bytes → Int := fun _ => 5

/-- A raw-inflate collaborator that always fails (unused by store
entries). -/
def inflateNone : Bytes → Option Bytes := fun _ => none

/-- C8: readentry's method dispatch, for every file, CRC collaborator,
inflate collaborator and CDIR record whose window read succeeds and whose
local header carries the correct signature: with method store (0) the call
returns exactly the payload slice iff the CRC-32 of that slice equals the
local header's recorded crc_32 and fails with the checksum-mismatch error
otherwise; with method deflate (8) the same holds for the raw-inflated
payload whenever inflation succeeds; with any other method id the call
fails with the unsupported-compression-method error. -/
theorem c8_readentry_dispatch (file : Bytes) (crc : Bytes → Int) (inflateRaw : Bytes → Option Bytes)
    (cdir : CDIRRec) (data : Bytes)
    (h1 : fileHead file cdir.off_loc (entrySize cdir) = some data)
    (h2 : (entryLoc cdir data).sig = SIG_LOC) :
    (cdir.compression = 0 →
        (readentry file crc inflateRaw cdir = .ok (entryPayload cdir data) ↔
          crc (entryPayload cdir data) = (entryLoc cdir data).crc_32) ∧
        (crc (entryPayload cdir data) ≠ (entryLoc cdir data).crc_32 →
          readentry file crc inflateRaw cdir = .error .crcMismatch)) ∧
      (cdir.compression = 8 →
        ∀ inflated, inflateRaw (entryPayload cdir data) = some inflated →
          (readentry file crc inflateRaw cdir = .ok inflated ↔
            crc inflated = (entryLoc cdir data).crc_32) ∧
          (crc inflated ≠ (entryLoc cdir data).crc_32 →
            readentry file crc inflateRaw cdir = .error .crcMismatch)) ∧
      (cdir.compression ≠ 0 → cdir.compression ≠ 8 →
        readentry file crc inflateRaw cdir = .error .unsupported) := by
  have hre : readentry file crc inflateRaw cdir =
      (if cdir.compression = 0 then
        if crc (entryPayload cdir data) = (entryLoc cdir data).crc_32 then
          .ok (entryPayload cdir data) else .error .crcMismatch
      else if cdir.compression = 8 then
        match inflateRaw (entryPayload cdir data) with
        | none => .error .inflateErr
        | some inflated =>
          if crc inflated = (entryLoc cdir data).crc_32 then .ok inflated
          else .error .crcMismatch
      else .error .unsupported) := by
    unfold readentry
    rw [h1]
    dsimp only
    rw [if_neg (by rw [h2]; exact fun hne => hne rfl)]
  refine ⟨?_, ?_, ?_⟩
  · intro hc0
    rw [hre, if_pos hc0]
    by_cases hcrc : crc (entryPayload cdir data) = (entryLoc cdir data).crc_32
    · rw [if_pos hcrc]
      exact ⟨⟨fun _ => hcrc, fun _ => rfl⟩, fun hne => absurd hcrc hne⟩
    · rw [if_neg hcrc]
      exact ⟨⟨fun h => absurd h (by simp), fun h => absurd h hcrc⟩, fun _ => rfl⟩
  · intro hc8 inflated hinf
    rw [hre, if_neg (by omega), if_pos hc8, hinf]
    dsimp only
    by_cases hcrc : crc inflated = (entryLoc cdir data).crc_32
    · rw [if_pos hcrc]
      exact ⟨⟨fun _ => hcrc, fun _ => rfl⟩, fun hne => absurd hcrc hne⟩
    · rw [if_neg hcrc]
      exact ⟨⟨fun h => absurd h (by simp), fun h => absurd h hcrc⟩, fun _ => rfl⟩
  · intro hn0 hn8
    rw [hre, if_neg hn0, if_neg hn8]

/-- C8 witness: extracting the store entry of locFile33 with a matching
CRC collaborator returns exactly the stored payload [10, 20, 30]. -/
theorem c8_readentry_dispatch_witness :
    (fileHead locFile33 cdirStore3.off_loc (entrySize cdirStore3) = some locFile33 ∧
        (entryLoc cdirStore3 locFile33).sig = SIG_LOC ∧
        crcConst5 (entryPayload cdirStore3 locFile33) = (entryLoc cdirStore3 locFile33).crc_32) ∧
      readentry locFile33 crcConst5 inflateNone cdirStore3 = .ok [10, 20, 30] := by
  refine ⟨⟨by decide, by decide, by decide⟩, ?_⟩
  have h :=
    ((c8_readentry_dispatch locFile33 crcConst5 inflateNone cdirStore3 locFile33 (by decide)
          (by decide)).1 rfl).1.mpr (by decide)
  rw [show entryPayload cdirStore3 locFile33 = [10, 20, 30] from by decide] at h
  exact h

end ZipEocd
